import Mathlib

/-!
# Verification of the folder_manager_api HTTP service

Shallow embedding of `src/folder_manager_api/folder_manager_api.py`
(a FastAPI wrapper around the external `folder_manager` package)
together with the framework behaviour the endpoints rely on:

* pydantic body validation for the three request models,
* FastAPI request handling order (JSON parse, dependencies, body fields),
* `fastapi.security.HTTPBasic` credential extraction,
* the HTTP Basic check `get_current_username`,
* each endpoint handler's translation of `Folder` results into responses,
* the startup configuration sequence (defaults on a missing config file).

The `Folder` class itself ships in the separate `folder_manager`
distribution and is not part of this repository's sources; its
operations are modelled from the specification (section 4.1) over an
explicit filesystem state, and every such definition is marked
`Modelled from the spec:` in its doc comment.
-/

namespace FolderManagerAPI

/-- JSON values, the bodies carried by requests and responses. -/
inductive Json where
  | null : Json
  | str : String → Json
  | num : Int → Json
  | bool : Bool → Json
  | arr : List Json → Json
  | obj : List (String × Json) → Json
deriving Repr

/-- Field lookup in a JSON object field list (first match wins, as in a
Python dict built from these pairs). -/
def lookupField : List (String × Json) → String → Option Json
  | [], _ => none
  | (k, v) :: rest, key => if k = key then some v else lookupField rest key

/-- An HTTP response: status code, JSON body and extra headers.
FastAPI serialises a handler's `dict` return value with status 200, a
`None` return as body `null` with status 200, and an `HTTPException`
as `{"detail": msg}` with the exception's status and headers. -/
structure Response where
  status : Nat
  body : Json
  headers : List (String × String)
deriving Repr

/-- Response for a handler that returns a Python dict. -/
def okResponse (body : Json) : Response := ⟨200, body, []⟩

/-- Response FastAPI produces for `raise HTTPException(status, detail,
headers)`. -/
def httpException (status : Nat) (detail : String)
    (headers : List (String × String)) : Response :=
  ⟨status, .obj [("detail", .str detail)], headers⟩

/-- `secrets.compare_digest` on the (ASCII) strings it receives from
`HTTPBasic`: a constant-time comparison whose boolean result is string
equality. -/
def compare_digest (a b : String) : Bool := a == b

/-- `get_current_username` (src lines 41-50): compare the supplied
credentials against the configured `username`/`password` with
`secrets.compare_digest`; both comparisons are computed before the
branch; on mismatch raise 401 with a fixed detail and a
`WWW-Authenticate: Basic` header, otherwise return the username. -/
def get_current_username (cfgUser cfgPass user pass_ : String) :
    Except Response String :=
  let correct_username := compare_digest user cfgUser
  let correct_password := compare_digest pass_ cfgPass
  if ¬ (correct_username && correct_password) then
    .error (httpException 401 "Incorrect username or password"
      [("WWW-Authenticate", "Basic")])
  else
    .ok user

/-- The state of the `Authorization` header of a request, after base64
handling: absent (or not the `Basic` scheme), present but undecodable
(bad base64, non-ASCII bytes, or no colon), or a decoded
username/password pair. -/
inductive BasicAuth where
  | missing : BasicAuth
  | malformed : BasicAuth
  | creds : String → String → BasicAuth
deriving Repr

/-- `fastapi.security.HTTPBasic` with `auto_error`: a missing header
(or wrong scheme) raises 401 "Not authenticated", an undecodable value
raises 401 "Invalid authentication credentials", both with a
`WWW-Authenticate: Basic` header; otherwise the decoded pair is handed
to the dependent. -/
def httpBasicExtract : BasicAuth → Except Response (String × String)
  | .missing =>
      .error (httpException 401 "Not authenticated"
        [("WWW-Authenticate", "Basic")])
  | .malformed =>
      .error (httpException 401 "Invalid authentication credentials"
        [("WWW-Authenticate", "Basic")])
  | .creds u p => .ok (u, p)

/-- Pydantic model `PathOperation` (src lines 56-57). -/
structure PathOperation where
  path : String
deriving Repr

/-- Pydantic model `FileOperation` (src lines 59-61). -/
structure FileOperation where
  path : String
  file_name : String
deriving Repr

/-- Pydantic model `CreateFileRequest` (src lines 52-54):
`file_name: str` required, `content: Optional[str] = ""` defaulting to
the empty string when the field is absent. -/
structure CreateFileRequest where
  file_name : String
  content : String
deriving Repr

/-- Pydantic validation of a JSON value against `PathOperation`: the
value must be an object whose `path` field is a string (extra keys are
ignored). -/
def validatePathOperation (j : Json) : Option PathOperation :=
  match j with
  | .obj fields =>
    match lookupField fields "path" with
    | some (.str p) => some ⟨p⟩
    | _ => none
  | _ => none

/-- Pydantic validation of a JSON value against `FileOperation`. -/
def validateFileOperation (j : Json) : Option FileOperation :=
  match j with
  | .obj fields =>
    match lookupField fields "path", lookupField fields "file_name" with
    | some (.str p), some (.str n) => some ⟨p, n⟩
    | _, _ => none
  | _ => none

/-- Pydantic validation of a JSON value against `CreateFileRequest`:
`file_name` required string; `content` optional, defaulting to `""`
when the key is absent. -/
def validateCreateFileRequest (j : Json) : Option CreateFileRequest :=
  match j with
  | .obj fields =>
    match lookupField fields "file_name" with
    | some (.str n) =>
      match lookupField fields "content" with
      | some (.str c) => some ⟨n, c⟩
      | none => some ⟨n, ""⟩
      | some _ => none
    | _ => none
  | _ => none

/-- Body validation for `create_file` (src line 104). The endpoint
declares two pydantic body parameters, `operation: PathOperation` and
`request: CreateFileRequest`; FastAPI therefore expects the body to be
an object embedding each model under a key named after its parameter:
`{"operation": {...}, "request": {...}}`. -/
def validateCreateFileBody (j : Json) :
    Option (PathOperation × CreateFileRequest) :=
  match j with
  | .obj fields =>
    match lookupField fields "operation", lookupField fields "request" with
    | some jo, some jr =>
      match validatePathOperation jo, validateCreateFileRequest jr with
      | some op, some rq => some (op, rq)
      | _, _ => none
    | _, _ => none
  | _ => none

/-- The single error kind raised by every `Folder` operation, carrying
a human-readable message; `str(e)` in the handlers yields `msg`. -/
structure FolderError where
  msg : String
deriving Repr

/-- A filesystem state: the set of existing directories, and the files
as a map from (directory path, file name) to content.

Modelled from the spec: the `Folder` abstraction (system overview,
component 1) lives in the external `folder_manager` distribution and
only its callers are under `src/`; this state and the `FS.*` operations
below follow the operation contracts of spec section 4.1. -/
structure FS where
  dirs : List String
  files : List ((String × String) × String)
deriving Repr

/-- Modelled from the spec: `folder_exists()` is a boolean check that
never fails. -/
def FS.folder_exists (fs : FS) (p : String) : Bool :=
  fs.dirs.contains p

/-- Modelled from the spec: `file_exists(name)` is a boolean check that
never fails. -/
def FS.file_exists (fs : FS) (p n : String) : Bool :=
  (fs.files.lookup (p, n)).isSome

/-- Modelled from the spec: `create_folder()` creates the directory and
returns a success indicator (true), failing with `FolderError` when the
directory cannot be created (here: it already exists). -/
def FS.create_folder (fs : FS) (p : String) :
    Except FolderError (Bool × FS) :=
  if fs.folder_exists p then
    .error ⟨"Error creating folder: \x27" ++ p ++ "\x27 already exists"⟩
  else
    .ok (true, ⟨p :: fs.dirs, fs.files⟩)

/-- Modelled from the spec: `list_files()` returns the entry names
directly under the path, failing with `FolderError` when the path is
not an existing directory. -/
def FS.list_files (fs : FS) (p : String) :
    Except FolderError (List String) :=
  if fs.folder_exists p then
    .ok ((fs.files.filter (fun e => e.1.1 = p)).map (fun e => e.1.2))
  else
    .error ⟨"Error listing files: \x27" ++ p ++ "\x27 is not a folder"⟩

/-- Modelled from the spec: `count_files()` returns the count of
entries under the path, with the same failure conditions as
`list_files()`. -/
def FS.count_files (fs : FS) (p : String) : Except FolderError Nat :=
  if fs.folder_exists p then
    .ok (fs.files.filter (fun e => e.1.1 = p)).length
  else
    .error ⟨"Error counting files: \x27" ++ p ++ "\x27 is not a folder"⟩

/-- Modelled from the spec: `create_file(name, content)` writes
`content` to `name` under the path, creating or truncating, and returns
a success indicator (true); it fails with `FolderError` when the parent
path does not exist. -/
def FS.create_file (fs : FS) (p n content : String) :
    Except FolderError (Bool × FS) :=
  if fs.folder_exists p then
    .ok (true,
      ⟨fs.dirs, ((p, n), content) ::
        fs.files.filter (fun e => e.1 ≠ (p, n))⟩)
  else
    .error ⟨"Error creating file: \x27" ++ p ++ "\x27 is not a folder"⟩

/-- Modelled from the spec: `delete_file(name)` removes the named file
under the path and returns a success indicator (true); it fails with
`FolderError` when the file does not exist. -/
def FS.delete_file (fs : FS) (p n : String) :
    Except FolderError (Bool × FS) :=
  if fs.file_exists p n then
    .ok (true, ⟨fs.dirs, fs.files.filter (fun e => e.1 ≠ (p, n))⟩)
  else
    .error ⟨"Error deleting file: \x27" ++ n ++ "\x27 does not exist"⟩

/-- Modelled from the spec: `delete_folder()` removes the directory at
the path and returns a success indicator (true); it fails with
`FolderError` when the path does not exist. The spec leaves the
non-empty-directory policy implementation-defined (section 9); this
model removes the directory together with the files directly under
it. -/
def FS.delete_folder (fs : FS) (p : String) :
    Except FolderError (Bool × FS) :=
  if fs.folder_exists p then
    .ok (true,
      ⟨fs.dirs.filter (fun d => d ≠ p),
        fs.files.filter (fun e => e.1.1 ≠ p)⟩)
  else
    .error ⟨"Error deleting folder: \x27" ++ p ++ "\x27 does not exist"⟩

/-- Handler body of POST /create_folder/ (src lines 76-83), with the
outcome of `folder.create_folder()` passed in as `result`: a
`FolderError` becomes `HTTPException(500, str(e))`; a truthy return
yields the message dict; a falsy return falls off the function, which
FastAPI serialises as a 200 with body `null`. -/
def create_folder (result : Except FolderError Bool) : Response :=
  match result with
  | .error e => httpException 500 e.msg []
  | .ok b =>
    if b then
      okResponse (.obj [("message", .str "Folder created successfully")])
    else
      okResponse .null

/-- Handler body of POST /list_files/ (src lines 85-92). -/
def list_files (result : Except FolderError (List String)) : Response :=
  match result with
  | .error e => httpException 500 e.msg []
  | .ok files => okResponse (.obj [("files", .arr (files.map .str))])

/-- Handler body of POST /count_files/ (src lines 94-101). -/
def count_files (result : Except FolderError Nat) : Response :=
  match result with
  | .error e => httpException 500 e.msg []
  | .ok count => okResponse (.obj [("file_count", .num count)])

/-- Handler body of POST /create_file/ (src lines 103-110), with the
outcome of `folder.create_file(request.file_name, request.content)`
passed in as `result`. -/
def create_file (file_name : String) (result : Except FolderError Bool) :
    Response :=
  match result with
  | .error e => httpException 500 e.msg []
  | .ok b =>
    if b then
      okResponse (.obj [("message",
        .str ("File \x27" ++ file_name ++ "\x27 created successfully"))])
    else
      okResponse .null

/-- Handler body of POST /delete_file/ (src lines 112-119). -/
def delete_file (file_name : String) (result : Except FolderError Bool) :
    Response :=
  match result with
  | .error e => httpException 500 e.msg []
  | .ok b =>
    if b then
      okResponse (.obj [("message",
        .str ("File \x27" ++ file_name ++ "\x27 deleted successfully"))])
    else
      okResponse .null

/-- Handler body of POST /delete_folder/ (src lines 121-128). -/
def delete_folder (path : String) (result : Except FolderError Bool) :
    Response :=
  match result with
  | .error e => httpException 500 e.msg []
  | .ok b =>
    if b then
      okResponse (.obj [("message",
        .str ("Folder \x27" ++ path ++ "\x27 deleted successfully"))])
    else
      okResponse .null

/-- Handler body of POST /folder_exists/ (src lines 130-133): no
try/except, always returns the dict. -/
def folder_exists (exists_ : Bool) : Response :=
  okResponse (.obj [("exists", .bool exists_)])

/-- Handler body of POST /file_exists/ (src lines 135-138). -/
def file_exists (exists_ : Bool) : Response :=
  okResponse (.obj [("exists", .bool exists_)])

/-- The eight POST endpoints of the service. -/
inductive Endpoint where
  | createFolder : Endpoint
  | listFiles : Endpoint
  | countFiles : Endpoint
  | createFile : Endpoint
  | deleteFile : Endpoint
  | deleteFolder : Endpoint
  | folderExists : Endpoint
  | fileExists : Endpoint
deriving Repr, DecidableEq

/-- A request body that passed pydantic validation for its endpoint. -/
inductive ParsedBody where
  | pathOp : PathOperation → ParsedBody
  | fileOp : FileOperation → ParsedBody
  | createFileOp : PathOperation → CreateFileRequest → ParsedBody
deriving Repr

/-- Body validation for each endpoint, per the pydantic parameter
declarations of the handlers in src: a single `PathOperation` or
`FileOperation` model binds the whole body, while `create_file`, which
declares two body models, expects them embedded under the parameter
names `operation` and `request`. -/
def validateBody : Endpoint → Json → Option ParsedBody
  | .createFolder, j => (validatePathOperation j).map .pathOp
  | .listFiles, j => (validatePathOperation j).map .pathOp
  | .countFiles, j => (validatePathOperation j).map .pathOp
  | .createFile, j =>
      (validateCreateFileBody j).map (fun x => .createFileOp x.1 x.2)
  | .deleteFile, j => (validateFileOperation j).map .fileOp
  | .deleteFolder, j => (validatePathOperation j).map .pathOp
  | .folderExists, j => (validatePathOperation j).map .pathOp
  | .fileExists, j => (validateFileOperation j).map .fileOp

/-- Dispatch of a validated request to its handler: instantiate the
`Folder` at the request's path, run the operation on the current
filesystem, and translate the outcome. Mutating operations return the
updated filesystem; a failed operation leaves it unchanged. The
catch-all for an endpoint/body mismatch is unreachable for bodies
produced by `validateBody`. -/
def runHandler (fs : FS) : Endpoint → ParsedBody → Response × FS
  | .createFolder, .pathOp op =>
    match fs.create_folder op.path with
    | .ok (b, fs2) => (create_folder (.ok b), fs2)
    | .error e => (create_folder (.error e), fs)
  | .listFiles, .pathOp op => (list_files (fs.list_files op.path), fs)
  | .countFiles, .pathOp op => (count_files (fs.count_files op.path), fs)
  | .createFile, .createFileOp op rq =>
    match fs.create_file op.path rq.file_name rq.content with
    | .ok (b, fs2) => (create_file rq.file_name (.ok b), fs2)
    | .error e => (create_file rq.file_name (.error e), fs)
  | .deleteFile, .fileOp op =>
    match fs.delete_file op.path op.file_name with
    | .ok (b, fs2) => (delete_file op.file_name (.ok b), fs2)
    | .error e => (delete_file op.file_name (.error e), fs)
  | .deleteFolder, .pathOp op =>
    match fs.delete_folder op.path with
    | .ok (b, fs2) => (delete_folder op.path (.ok b), fs2)
    | .error e => (delete_folder op.path (.error e), fs)
  | .folderExists, .pathOp op => (folder_exists (fs.folder_exists op.path), fs)
  | .fileExists, .fileOp op =>
    (file_exists (fs.file_exists op.path op.file_name), fs)
  | _, _ => (okResponse .null, fs)

/-- The response FastAPI produces for a `RequestValidationError`:
status 422 with a `detail` list describing the errors (the list's
contents are not modelled). -/
def validationError : Response :=
  ⟨422, .obj [("detail", .arr [])], []⟩

/-- One full request against an endpoint, following FastAPI's request
handling order: a syntactically invalid JSON body (`body = none`) is
rejected with 422 before dependencies run; then the security dependency
(`HTTPBasic` extraction followed by `get_current_username`) runs and a
401 raised there short-circuits; then the body is validated against the
endpoint's models (422 on failure); finally the handler runs and may
update the filesystem. -/
def processRequest (cfgUser cfgPass : String) (fs : FS) (ep : Endpoint)
    (auth : BasicAuth) (body : Option Json) : Response × FS :=
  match body with
  | none => (validationError, fs)
  | some j =>
    match httpBasicExtract auth with
    | .error r => (r, fs)
    | .ok (u, p) =>
      match get_current_username cfgUser cfgPass u p with
      | .error r => (r, fs)
      | .ok _ =>
        match validateBody ep j with
        | none => (validationError, fs)
        | some pb => runHandler fs ep pb

/-- An INI-style configuration file as configparser reads and writes
it: a list of sections, each a list of key-value string pairs. -/
abbrev IniFile := List (String × List (String × String))

/-- Key-value lookup in one section. -/
def lookupKV : List (String × String) → String → Option String
  | [], _ => none
  | (k, v) :: rest, key => if k = key then some v else lookupKV rest key

/-- Key lookup inside a section of an INI file. -/
def iniLookup (ini : IniFile) (sec key : String) : Option String :=
  match ini with
  | [] => none
  | (s, kvs) :: rest =>
    if s = sec then lookupKV kvs key else iniLookup rest sec key

/-- The default configuration written when
`folder_manager_api.config` is absent (src lines 20-24): section
`server` with `port = 8000`, section `auth` with `username = admin`
and `password = password`. -/
def defaultIni : IniFile :=
  [("server", [("port", "8000")]),
   ("auth", [("username", "admin"), ("password", "password")])]

/-- Decimal digits to a number, most significant first; `none` on a
non-digit character. -/
def digitsToNat (acc : Nat) : List Char → Option Nat
  | [] => some acc
  | c :: cs =>
    if c.isDigit then digitsToNat (acc * 10 + (c.toNat - 48)) cs else none

/-- One or more decimal digits. -/
def parseDigits : List Char → Option Nat
  | [] => none
  | cs => digitsToNat 0 cs

/-- Python `int()` on the strings configparser yields: an optional
sign followed by decimal digits (surrounding whitespace and underscore
separators are not modelled); any other string raises ValueError,
modelled as `none`. -/
def pyInt (s : String) : Option Int :=
  match s.data with
  | [] => none
  | c :: cs =>
    if c = '-' then (parseDigits cs).map (fun n => -(n : Int))
    else (parseDigits (c :: cs)).map (fun n => (n : Int))

/-- The three process-wide values read once at startup. -/
structure LoadedConfig where
  port : Int
  username : String
  password : String
deriving Repr, DecidableEq

/-- Extraction of the process-wide values (src lines 27-30):
`int(config[server][port])`, `config[auth][username]`,
`config[auth][password]`; a missing section or key (KeyError) or a
non-numeric port (ValueError) aborts startup, modelled as `none`. -/
def readValues (ini : IniFile) : Option LoadedConfig :=
  match iniLookup ini "server" "port" with
  | none => none
  | some ps =>
    match pyInt ps with
    | none => none
    | some port =>
      match iniLookup ini "auth" "username", iniLookup ini "auth" "password" with
      | some u, some pw => some ⟨port, u, pw⟩
      | _, _ => none

/-- The startup sequence (src lines 16-30): when the configuration
file is absent, the defaults are written to it; the file is then read
and the three module-level values extracted, once, with no later
reassignment. Returns the file state after startup and the loaded
values. -/
def startupConfig (file : Option IniFile) : IniFile × Option LoadedConfig :=
  match file with
  | none => (defaultIni, readValues defaultIni)
  | some ini => (ini, readValues ini)

/-! ## Helper lemmas -/

theorem create_folder_status (r : Except FolderError Bool) :
    (create_folder r).status = 200 ∨ (create_folder r).status = 500 := by
  cases r with
  | error e => exact Or.inr rfl
  | ok b => cases b <;> exact Or.inl rfl

theorem list_files_status (r : Except FolderError (List String)) :
    (list_files r).status = 200 ∨ (list_files r).status = 500 := by
  cases r with
  | error e => exact Or.inr rfl
  | ok l => exact Or.inl rfl

theorem count_files_status (r : Except FolderError Nat) :
    (count_files r).status = 200 ∨ (count_files r).status = 500 := by
  cases r with
  | error e => exact Or.inr rfl
  | ok c => exact Or.inl rfl

theorem create_file_status (n : String) (r : Except FolderError Bool) :
    (create_file n r).status = 200 ∨ (create_file n r).status = 500 := by
  cases r with
  | error e => exact Or.inr rfl
  | ok b => cases b <;> exact Or.inl rfl

theorem delete_file_status (n : String) (r : Except FolderError Bool) :
    (delete_file n r).status = 200 ∨ (delete_file n r).status = 500 := by
  cases r with
  | error e => exact Or.inr rfl
  | ok b => cases b <;> exact Or.inl rfl

theorem delete_folder_status (p : String) (r : Except FolderError Bool) :
    (delete_folder p r).status = 200 ∨ (delete_folder p r).status = 500 := by
  cases r with
  | error e => exact Or.inr rfl
  | ok b => cases b <;> exact Or.inl rfl

/-- Every handler dispatched by `runHandler` responds with status 200
or 500; in particular a handler never produces a 401 or a 422. -/
theorem runHandler_status (fs : FS) (ep : Endpoint) (pb : ParsedBody) :
    (runHandler fs ep pb).1.status = 200 ∨
      (runHandler fs ep pb).1.status = 500 := by
  cases ep <;> cases pb <;>
    first
      | exact Or.inl rfl
      | exact list_files_status _
      | exact count_files_status _
      | (rename_i op
         rcases h : fs.create_folder op.path with e | r <;>
           simp only [runHandler, h] <;>
           exact create_folder_status _)
      | (rename_i op rq
         rcases h : fs.create_file op.path rq.file_name rq.content with e | r <;>
           simp only [runHandler, h] <;>
           exact create_file_status _ _)
      | (rename_i op
         rcases h : fs.delete_file op.path op.file_name with e | r <;>
           simp only [runHandler, h] <;>
           exact delete_file_status _ _)
      | (rename_i op
         rcases h : fs.delete_folder op.path with e | r <;>
           simp only [runHandler, h] <;>
           exact delete_folder_status _ _)

theorem create_folder_ok_true (fs : FS) (p : String) (r : Bool × FS)
    (h : fs.create_folder p = .ok r) : r.1 = true := by
  unfold FS.create_folder at h
  split at h
  · cases h
  · cases h; rfl

theorem create_file_ok_true (fs : FS) (p n c : String) (r : Bool × FS)
    (h : fs.create_file p n c = .ok r) : r.1 = true := by
  unfold FS.create_file at h
  split at h
  · cases h; rfl
  · cases h

theorem delete_file_ok_true (fs : FS) (p n : String) (r : Bool × FS)
    (h : fs.delete_file p n = .ok r) : r.1 = true := by
  unfold FS.delete_file at h
  split at h
  · cases h; rfl
  · cases h

theorem delete_folder_ok_true (fs : FS) (p : String) (r : Bool × FS)
    (h : fs.delete_folder p = .ok r) : r.1 = true := by
  unfold FS.delete_folder at h
  split at h
  · cases h; rfl
  · cases h

/-! ## Claims -/

/-- C8: at startup with the configuration file absent, the file is
created with exactly the defaults `server.port = 8000`,
`auth.username = "admin"`, `auth.password = "password"`, and the values
then read from it (once, into process-wide state) are port 8000,
username "admin", password "password". -/
theorem c8_startup_defaults :
    startupConfig none =
      ([("server", [("port", "8000")]),
        ("auth", [("username", "admin"), ("password", "password")])],
       some { port := 8000, username := "admin", password := "password" }) := by
  rfl

/-- C3: for each of the six fallible endpoints, a `FolderError` with
message `m` raised by the underlying `Folder` operation is translated
into exactly `HTTPException(500, m)` (a 500 response whose `detail` is
`m`), and an operation outcome that raises no `FolderError` is never
translated into a 500: every non-error outcome yields status 200. -/
theorem c3_folder_error_500 (e : FolderError) (n p : String) (b : Bool)
    (fl : List String) (c : Nat) :
    create_folder (.error e) = httpException 500 e.msg [] ∧
    list_files (.error e) = httpException 500 e.msg [] ∧
    count_files (.error e) = httpException 500 e.msg [] ∧
    create_file n (.error e) = httpException 500 e.msg [] ∧
    delete_file n (.error e) = httpException 500 e.msg [] ∧
    delete_folder p (.error e) = httpException 500 e.msg [] ∧
    (create_folder (.ok b)).status = 200 ∧
    (list_files (.ok fl)).status = 200 ∧
    (count_files (.ok c)).status = 200 ∧
    (create_file n (.ok b)).status = 200 ∧
    (delete_file n (.ok b)).status = 200 ∧
    (delete_folder p (.ok b)).status = 200 := by
  refine ⟨rfl, rfl, rfl, rfl, rfl, rfl, ?_, rfl, rfl, ?_, ?_, ?_⟩ <;>
    cases b <;> rfl

/-- C10: any two credential pairs rejected by `get_current_username`
(wrong username, wrong password, or both) receive literally the same
401 response: same status, same fixed detail, same `WWW-Authenticate`
header; the embedded check computes both comparisons before branching,
as the source does. -/
theorem c10_failures_indistinguishable (cfgU cfgP u1 p1 u2 p2 : String)
    (r1 r2 : Response)
    (h1 : get_current_username cfgU cfgP u1 p1 = .error r1)
    (h2 : get_current_username cfgU cfgP u2 p2 = .error r2) :
    r1 = r2 ∧ r1.status = 401 ∧
      r1.body = .obj [("detail", .str "Incorrect username or password")] ∧
      r1.headers = [("WWW-Authenticate", "Basic")] := by
  simp only [get_current_username, compare_digest] at h1 h2
  split at h1
  · split at h2
    · injection h1 with e1
      injection h2 with e2
      subst e1
      subst e2
      exact ⟨rfl, rfl, rfl, rfl⟩
    · cases h2
  · cases h1

/-- C10 witness: a wrong-username pair and a wrong-password pair are
both rejected, with identical 401 responses. -/
theorem c10_witness :
    get_current_username "admin" "password" "bob" "password" =
      .error (httpException 401 "Incorrect username or password"
        [("WWW-Authenticate", "Basic")]) ∧
    get_current_username "admin" "password" "admin" "hunter2" =
      .error (httpException 401 "Incorrect username or password"
        [("WWW-Authenticate", "Basic")]) ∧
    (httpException 401 "Incorrect username or password"
        [("WWW-Authenticate", "Basic")] =
      httpException 401 "Incorrect username or password"
        [("WWW-Authenticate", "Basic")] ∧
      (httpException 401 "Incorrect username or password"
        [("WWW-Authenticate", "Basic")]).status = 401 ∧
      (httpException 401 "Incorrect username or password"
        [("WWW-Authenticate", "Basic")]).body =
        .obj [("detail", .str "Incorrect username or password")] ∧
      (httpException 401 "Incorrect username or password"
        [("WWW-Authenticate", "Basic")]).headers =
        [("WWW-Authenticate", "Basic")]) :=
  ⟨rfl, rfl,
    c10_failures_indistinguishable "admin" "password" "bob" "password"
      "admin" "hunter2" _ _ rfl rfl⟩

/-- Correct credentials pass `get_current_username` and yield the
supplied username. -/
theorem get_current_username_ok (cfgU cfgP : String) :
    get_current_username cfgU cfgP cfgU cfgP = .ok cfgU := by
  simp [get_current_username, compare_digest]

/-- C4: an authenticated, schema-valid request to /folder_exists/ or
/file_exists/ never fails: the response is always a 200 whose body is
`{exists: b}` with `b` the boolean existence check, the filesystem is
untouched, and absence is reported as `exists: false`, never as an
error response. -/
theorem c4_exists_never_fails (cfgU cfgP : String) (fs : FS) (p n : String) :
    processRequest cfgU cfgP fs .folderExists (.creds cfgU cfgP)
      (some (.obj [("path", .str p)]))
      = (okResponse (.obj [("exists", .bool (fs.folder_exists p))]), fs) ∧
    processRequest cfgU cfgP fs .fileExists (.creds cfgU cfgP)
      (some (.obj [("path", .str p), ("file_name", .str n)]))
      = (okResponse (.obj [("exists", .bool (fs.file_exists p n))]), fs) ∧
    (fs.folder_exists p = false ↔ p ∉ fs.dirs) ∧
    (fs.file_exists p n = false ↔ fs.files.lookup (p, n) = none) := by
  refine ⟨?_, ?_, ?_, ?_⟩
  · simp only [processRequest, httpBasicExtract, get_current_username_ok]
    rfl
  · simp only [processRequest, httpBasicExtract, get_current_username_ok]
    rfl
  · simp [FS.folder_exists]
  · cases hl : fs.files.lookup (p, n) with
    | none => simp [FS.file_exists, hl]
    | some v => simp [FS.file_exists, hl]

/-- C1 counterexample: the flat body `{path, file_name, content}`
claimed by the spec is rejected by /create_file/ validation — the
endpoint declares two body models, so FastAPI requires them embedded
under the parameter names — and an authenticated request carrying the
flat body receives a 422, with the handler never running. -/
theorem c1_flat_body_rejected :
    validateBody .createFile
      (.obj [("path", .str "docs"), ("file_name", .str "a.txt"),
             ("content", .str "hi")]) = none ∧
    (processRequest "admin" "password" ⟨["docs"], []⟩ .createFile
      (.creds "admin" "password")
      (some (.obj [("path", .str "docs"), ("file_name", .str "a.txt"),
                   ("content", .str "hi")]))).1.status = 422 := by
  exact ⟨rfl, rfl⟩

/-- C1 (amended): /create_file/ accepts the nested body
`{operation: {path}, request: {file_name, content?}}`: for every such
body with string fields, validation succeeds and the handler receives
the path, the file name and the content (defaulting to `""` when the
`content` key is absent). -/
theorem c1_nested_body_accepted (fs : FS) (p n c : String) :
    validateBody .createFile
      (.obj [("operation", .obj [("path", .str p)]),
             ("request", .obj [("file_name", .str n), ("content", .str c)])])
      = some (.createFileOp ⟨p⟩ ⟨n, c⟩) ∧
    validateBody .createFile
      (.obj [("operation", .obj [("path", .str p)]),
             ("request", .obj [("file_name", .str n)])])
      = some (.createFileOp ⟨p⟩ ⟨n, ""⟩) ∧
    processRequest "admin" "password" fs .createFile
      (.creds "admin" "password")
      (some (.obj [("operation", .obj [("path", .str p)]),
             ("request", .obj [("file_name", .str n), ("content", .str c)])]))
      = runHandler fs .createFile (.createFileOp ⟨p⟩ ⟨n, c⟩) := by
  exact ⟨rfl, rfl, rfl⟩

/-- C2 counterexample: a request with no Authorization header (and a
valid body) is rejected with 401 and the `WWW-Authenticate: Basic`
challenge, but its detail is the framework's "Not authenticated", not
the claimed "Incorrect username or password". -/
theorem c2_missing_header_detail :
    (processRequest "admin" "password" ⟨[], []⟩ .createFolder .missing
      (some (.obj [("path", .str "docs")]))).1
      = httpException 401 "Not authenticated" [("WWW-Authenticate", "Basic")] ∧
    "Not authenticated" ≠ "Incorrect username or password" := by
  exact ⟨rfl, by decide⟩

/-- C2 (amended): for every endpoint and every request with a
syntactically valid JSON body, a missing Authorization header yields
401 with detail "Not authenticated", an undecodable one yields 401
with detail "Invalid authentication credentials", both with a
`WWW-Authenticate: Basic` header; supplied credentials differing from
the configured pair in username or password yield 401 with the
`WWW-Authenticate: Basic` header and detail exactly
"Incorrect username or password"; and when both credentials equal the
configured pair the response is never a 401. -/
theorem c2_auth_responses (cfgU cfgP u p : String) (ep : Endpoint)
    (fs : FS) (j : Json) (h : u ≠ cfgU ∨ p ≠ cfgP) :
    (processRequest cfgU cfgP fs ep .missing (some j)).1
      = httpException 401 "Not authenticated"
          [("WWW-Authenticate", "Basic")] ∧
    (processRequest cfgU cfgP fs ep .malformed (some j)).1
      = httpException 401 "Invalid authentication credentials"
          [("WWW-Authenticate", "Basic")] ∧
    (processRequest cfgU cfgP fs ep (.creds u p) (some j)).1
      = httpException 401 "Incorrect username or password"
          [("WWW-Authenticate", "Basic")] ∧
    (processRequest cfgU cfgP fs ep (.creds cfgU cfgP) (some j)).1.status
      ≠ 401 := by
  refine ⟨rfl, rfl, ?_, ?_⟩
  · have hc : (u == cfgU && p == cfgP) = false := by
      rcases h with h | h
      · simp [beq_eq_false_iff_ne.mpr h]
      · simp [beq_eq_false_iff_ne.mpr h]
    simp [processRequest, httpBasicExtract, get_current_username,
      compare_digest, hc]
  · simp only [processRequest, httpBasicExtract, get_current_username_ok]
    rcases hv : validateBody ep j with _ | pb
    · simp [hv, validationError]
    · simp only [hv]
      rcases runHandler_status fs ep pb with hs | hs <;> simp [hs]

/-- C2 witness: concrete instances of the amended claim at the default
configuration, a wrong username, and the /create_folder/ body. -/
theorem c2_witness :
    ("bob" ≠ "admin" ∨ "password" ≠ "password") ∧
    ((processRequest "admin" "password" ⟨[], []⟩ .createFolder .missing
      (some (.obj [("path", .str "d")]))).1
      = httpException 401 "Not authenticated"
          [("WWW-Authenticate", "Basic")] ∧
    (processRequest "admin" "password" ⟨[], []⟩ .createFolder .malformed
      (some (.obj [("path", .str "d")]))).1
      = httpException 401 "Invalid authentication credentials"
          [("WWW-Authenticate", "Basic")] ∧
    (processRequest "admin" "password" ⟨[], []⟩ .createFolder
      (.creds "bob" "password") (some (.obj [("path", .str "d")]))).1
      = httpException 401 "Incorrect username or password"
          [("WWW-Authenticate", "Basic")] ∧
    (processRequest "admin" "password" ⟨[], []⟩ .createFolder
      (.creds "admin" "password") (some (.obj [("path", .str "d")]))).1.status
      ≠ 401) :=
  ⟨by decide,
    c2_auth_responses "admin" "password" "bob" "password" .createFolder
      ⟨[], []⟩ (.obj [("path", .str "d")]) (by decide)⟩

/-- C5: whenever `list_files` succeeds on a path with a list `l`,
`count_files` succeeds on that path with exactly `l.length`, and the
two endpoints report the matching `{files}` and `{file_count}`
bodies. -/
theorem c5_count_files_eq_len_list_files (cfgU cfgP : String) (fs : FS)
    (p : String) (l : List String) (h : fs.list_files p = .ok l) :
    fs.count_files p = .ok l.length ∧
    (processRequest cfgU cfgP fs .listFiles (.creds cfgU cfgP)
      (some (.obj [("path", .str p)]))).1
      = okResponse (.obj [("files", .arr (l.map .str))]) ∧
    (processRequest cfgU cfgP fs .countFiles (.creds cfgU cfgP)
      (some (.obj [("path", .str p)]))).1
      = okResponse (.obj [("file_count", .num l.length)]) := by
  have hf : fs.folder_exists p = true := by
    by_contra hb
    rw [Bool.not_eq_true] at hb
    simp [FS.list_files, hb] at h
  have h' : (fs.files.filter (fun e => e.1.1 = p)).map (fun e => e.1.2)
      = l := by
    simpa [FS.list_files, hf] using h
  have hc : fs.count_files p = .ok l.length := by
    simp [FS.count_files, hf, ← h', List.length_map]
  refine ⟨hc, ?_, ?_⟩
  · simp only [processRequest, httpBasicExtract, get_current_username_ok]
    show (list_files (fs.list_files p), fs).1 = _
    rw [h]
    rfl
  · simp only [processRequest, httpBasicExtract, get_current_username_ok]
    show (count_files (fs.count_files p), fs).1 = _
    rw [hc]
    rfl

/-- C5 witness: on a folder with two files, /list_files/ returns both
names and /count_files/ returns 2. -/
theorem c5_witness :
    (⟨["d"], [(("d", "a"), ""), (("d", "b"), "x")]⟩ : FS).list_files "d"
      = .ok ["a", "b"] ∧
    ((⟨["d"], [(("d", "a"), ""), (("d", "b"), "x")]⟩ : FS).count_files "d"
      = .ok (["a", "b"] : List String).length ∧
    (processRequest "admin" "password"
      ⟨["d"], [(("d", "a"), ""), (("d", "b"), "x")]⟩ .listFiles
      (.creds "admin" "password") (some (.obj [("path", .str "d")]))).1
      = okResponse (.obj [("files", .arr ((["a", "b"] : List String).map .str))]) ∧
    (processRequest "admin" "password"
      ⟨["d"], [(("d", "a"), ""), (("d", "b"), "x")]⟩ .countFiles
      (.creds "admin" "password") (some (.obj [("path", .str "d")]))).1
      = okResponse (.obj [("file_count", .num (["a", "b"] : List String).length)])) :=
  ⟨rfl,
    c5_count_files_eq_len_list_files "admin" "password"
      ⟨["d"], [(("d", "a"), ""), (("d", "b"), "x")]⟩ "d" ["a", "b"] rfl⟩

/-- C6: for each of /create_folder/, /create_file/, /delete_file/ and
/delete_folder/, whenever the underlying `Folder` operation completes
without raising `FolderError`, the endpoint's response body is a JSON
object of shape `{message}` with a message string. -/
theorem c6_success_message_bodies (fsA fsB fsC fsD : FS)
    (pA pB pC pD nB nC c : String) (rA rB rC rD : Bool × FS)
    (hA : fsA.create_folder pA = .ok rA)
    (hB : fsB.create_file pB nB c = .ok rB)
    (hC : fsC.delete_file pC nC = .ok rC)
    (hD : fsD.delete_folder pD = .ok rD) :
    (runHandler fsA .createFolder (.pathOp ⟨pA⟩)).1
      = okResponse (.obj [("message", .str "Folder created successfully")]) ∧
    (runHandler fsB .createFile (.createFileOp ⟨pB⟩ ⟨nB, c⟩)).1
      = okResponse (.obj [("message",
          .str ("File \x27" ++ nB ++ "\x27 created successfully"))]) ∧
    (runHandler fsC .deleteFile (.fileOp ⟨pC, nC⟩)).1
      = okResponse (.obj [("message",
          .str ("File \x27" ++ nC ++ "\x27 deleted successfully"))]) ∧
    (runHandler fsD .deleteFolder (.pathOp ⟨pD⟩)).1
      = okResponse (.obj [("message",
          .str ("Folder \x27" ++ pD ++ "\x27 deleted successfully"))]) := by
  obtain ⟨bA, fsA2⟩ := rA
  obtain ⟨bB, fsB2⟩ := rB
  obtain ⟨bC, fsC2⟩ := rC
  obtain ⟨bD, fsD2⟩ := rD
  have tA : bA = true := create_folder_ok_true _ _ _ hA
  have tB : bB = true := create_file_ok_true _ _ _ _ _ hB
  have tC : bC = true := delete_file_ok_true _ _ _ _ hC
  have tD : bD = true := delete_folder_ok_true _ _ _ hD
  subst tA
  subst tB
  subst tC
  subst tD
  refine ⟨?_, ?_, ?_, ?_⟩
  · simp only [runHandler, hA]
    rfl
  · simp only [runHandler, hB]
    rfl
  · simp only [runHandler, hC]
    rfl
  · simp only [runHandler, hD]
    rfl

/-- C6 witness: concrete successful create-folder, create-file,
delete-file and delete-folder operations all yield `{message}`
bodies. -/
theorem c6_witness :
    (⟨[], []⟩ : FS).create_folder "d" = .ok (true, ⟨["d"], []⟩) ∧
    (⟨["d"], []⟩ : FS).create_file "d" "a" "hi"
      = .ok (true, ⟨["d"], [(("d", "a"), "hi")]⟩) ∧
    (⟨["d"], [(("d", "a"), "x")]⟩ : FS).delete_file "d" "a"
      = .ok (true, ⟨["d"], []⟩) ∧
    (⟨["d"], []⟩ : FS).delete_folder "d" = .ok (true, ⟨[], []⟩) ∧
    ((runHandler ⟨[], []⟩ .createFolder (.pathOp ⟨"d"⟩)).1
      = okResponse (.obj [("message", .str "Folder created successfully")]) ∧
    (runHandler ⟨["d"], []⟩ .createFile (.createFileOp ⟨"d"⟩ ⟨"a", "hi"⟩)).1
      = okResponse (.obj [("message",
          .str ("File \x27" ++ "a" ++ "\x27 created successfully"))]) ∧
    (runHandler ⟨["d"], [(("d", "a"), "x")]⟩ .deleteFile
        (.fileOp ⟨"d", "a"⟩)).1
      = okResponse (.obj [("message",
          .str ("File \x27" ++ "a" ++ "\x27 deleted successfully"))]) ∧
    (runHandler ⟨["d"], []⟩ .deleteFolder (.pathOp ⟨"d"⟩)).1
      = okResponse (.obj [("message",
          .str ("Folder \x27" ++ "d" ++ "\x27 deleted successfully"))])) :=
  ⟨rfl, rfl, rfl, rfl,
    c6_success_message_bodies ⟨[], []⟩ ⟨["d"], []⟩
      ⟨["d"], [(("d", "a"), "x")]⟩ ⟨["d"], []⟩ "d" "d" "d" "d" "a" "a" "hi"
      (true, ⟨["d"], []⟩) (true, ⟨["d"], [(("d", "a"), "hi")]⟩)
      (true, ⟨["d"], []⟩) (true, ⟨[], []⟩) rfl rfl rfl rfl⟩

/-- C7: a request whose body is syntactically invalid JSON, or whose
body fails the endpoint's schema validation, is rejected with a
4xx-class response and causes no filesystem mutation: the filesystem
after the request equals the filesystem before it, for every
endpoint and every authentication state. -/
theorem c7_validation_rejected_no_mutation (cfgU cfgP : String) (fs : FS)
    (ep : Endpoint) (auth : BasicAuth) (j : Json)
    (h : validateBody ep j = none) :
    ((processRequest cfgU cfgP fs ep auth none).2 = fs ∧
      400 ≤ (processRequest cfgU cfgP fs ep auth none).1.status ∧
      (processRequest cfgU cfgP fs ep auth none).1.status < 500) ∧
    ((processRequest cfgU cfgP fs ep auth (some j)).2 = fs ∧
      400 ≤ (processRequest cfgU cfgP fs ep auth (some j)).1.status ∧
      (processRequest cfgU cfgP fs ep auth (some j)).1.status < 500) := by
  have hnone : processRequest cfgU cfgP fs ep auth none
      = (validationError, fs) := rfl
  constructor
  · rw [hnone]
    exact ⟨rfl, (by decide : (400 : Nat) ≤ 422), (by decide : (422 : Nat) < 500)⟩
  · cases auth with
    | missing =>
      have hm : processRequest cfgU cfgP fs ep .missing (some j)
          = (httpException 401 "Not authenticated"
              [("WWW-Authenticate", "Basic")], fs) := rfl
      rw [hm]
      exact ⟨rfl, (by decide : (400 : Nat) ≤ 401), (by decide : (401 : Nat) < 500)⟩
    | malformed =>
      have hm : processRequest cfgU cfgP fs ep .malformed (some j)
          = (httpException 401 "Invalid authentication credentials"
              [("WWW-Authenticate", "Basic")], fs) := rfl
      rw [hm]
      exact ⟨rfl, (by decide : (400 : Nat) ≤ 401), (by decide : (401 : Nat) < 500)⟩
    | creds u p =>
      rcases hg : get_current_username cfgU cfgP u p with r | s
      · have hr : r = httpException 401 "Incorrect username or password"
            [("WWW-Authenticate", "Basic")] := by
          simp only [get_current_username, compare_digest] at hg
          split at hg
          · injection hg with e
            exact e.symm
          · cases hg
        have hm : processRequest cfgU cfgP fs ep (.creds u p) (some j)
            = (r, fs) := by
          simp only [processRequest, httpBasicExtract, hg]
        rw [hm, hr]
        exact ⟨rfl, (by decide : (400 : Nat) ≤ 401), (by decide : (401 : Nat) < 500)⟩
      · have hm : processRequest cfgU cfgP fs ep (.creds u p) (some j)
            = (validationError, fs) := by
          simp only [processRequest, httpBasicExtract, hg, h]
        rw [hm]
        exact ⟨rfl, (by decide : (400 : Nat) ≤ 422), (by decide : (422 : Nat) < 500)⟩

/-- C7 witness: an empty-object body fails /create_folder/ validation;
with correct credentials the request is answered 422 and the
filesystem is unchanged, and so is a request with unparsable JSON. -/
theorem c7_witness :
    validateBody .createFolder (.obj []) = none ∧
    (((processRequest "admin" "password" ⟨["d"], []⟩ .createFolder
        (.creds "admin" "password") none).2 = ⟨["d"], []⟩ ∧
      400 ≤ (processRequest "admin" "password" ⟨["d"], []⟩ .createFolder
        (.creds "admin" "password") none).1.status ∧
      (processRequest "admin" "password" ⟨["d"], []⟩ .createFolder
        (.creds "admin" "password") none).1.status < 500) ∧
    ((processRequest "admin" "password" ⟨["d"], []⟩ .createFolder
        (.creds "admin" "password") (some (.obj []))).2 = ⟨["d"], []⟩ ∧
      400 ≤ (processRequest "admin" "password" ⟨["d"], []⟩ .createFolder
        (.creds "admin" "password") (some (.obj []))).1.status ∧
      (processRequest "admin" "password" ⟨["d"], []⟩ .createFolder
        (.creds "admin" "password") (some (.obj []))).1.status < 500)) :=
  ⟨rfl,
    c7_validation_rejected_no_mutation "admin" "password" ⟨["d"], []⟩
      .createFolder (.creds "admin" "password") (.obj []) rfl⟩

end FolderManagerAPI
